import Mathlib

/-
  Shallow embedding of the eligibility and deduplication core of the
  hebcal shabbat-email repository, mainly of src/yahrzeit_email.ts and
  src/common.ts.  Pure functions are translated directly; database reads,
  the mail transport and the lunisolar-calendar library are modelled as
  explicit inputs at the narrow interfaces the code consumes them through.
  Calendar dates (dayjs objects at local midnight, JS Date values) are
  represented by their serial day number (days since 1970-01-01) as Int.
-/

set_option maxRecDepth 4000

/-! ## JS values and objects

A JSON payload field is either a string or a number; property access on a
plain object yields the value or `undefined`, modelled by `Option`. -/

inductive FieldVal
  | str (s : String)
  | num (n : Int)
deriving DecidableEq, Repr

/-- A JS object of string/number fields (keys unique, in insertion order). -/
abbrev JSMap := List (String × FieldVal)

/-- Property access `query[k]`: `undefined` becomes `none`. -/
def jget (q : JSMap) (k : String) : Option FieldVal := q.lookup k

/-- Source `empty(val)`: true unless the value is a string of positive
length (the typeof-string and length test). -/
def empty : Option FieldVal → Bool
  | some (.str s) => s.length == 0
  | _ => true

def isDigitChar (c : Char) : Bool := 48 ≤ c.toNat && c.toNat ≤ 57

def digitsVal (cs : List Char) : Nat :=
  cs.foldl (fun a c => a * 10 + (c.toNat - 48)) 0

/-- JS `parseInt(s, 10)`: skip leading whitespace, optional sign, then the
longest prefix of decimal digits; `NaN` (here `none`) if there is none. -/
def parseIntJS (s : String) : Option Int :=
  let cs := s.toList.dropWhile (fun c => c == ' ' || c == '\t' || c == '\n' || c == '\r')
  let signed : Bool × List Char :=
    match cs with
    | '-' :: rest => (true, rest)
    | '+' :: rest => (false, rest)
    | _ => (false, cs)
  let ds := signed.2.takeWhile isDigitChar
  if ds.isEmpty then none
  else some (if signed.1 then -(digitsVal ds : Int) else (digitsVal ds : Int))

/-- JS unary plus `+s` on the numeric suffix of a slot key.  The keys the
loader scans have all-digit suffixes; any other suffix gives `NaN`,
modelled as `none` (a `NaN` slot index never updates the running max). -/
def jsPlusNat (s : String) : Option Nat :=
  let ds := s.toList
  if !ds.isEmpty && ds.all isDigitChar then some (digitsVal ds) else none

/-- Source `isNumKey(k)`: `k.charCodeAt(1)` is a decimal digit
(`charCodeAt` of a missing index is `NaN`, failing the range test). -/
def isNumKey (k : String) : Bool :=
  match k.toList with
  | _ :: c :: _ => 48 ≤ c.toNat && c.toNat ≤ 57
  | _ => false

/-! ## Gregorian calendar arithmetic

Serial day numbers with day 0 = 1970-01-01, matching dayjs date
arithmetic at local midnight and JS `Date` month/day rollover. -/

def isLeapYear (y : Int) : Bool :=
  (y.emod 4 == 0 && y.emod 100 != 0) || y.emod 400 == 0

/-- Days before the start of month `m` (1-12) in a common year. -/
def monthCum (m : Nat) : Nat :=
  [0, 31, 59, 90, 120, 151, 181, 212, 243, 273, 304, 334].getD (m - 1) 0

/-- Serial day number of year `y`, month `m` (1-12), day-of-month `d`;
`d` may be any integer, extra days spill into adjacent months exactly as
JS `Date` day rollover does. -/
def civilToDays (y : Int) (m : Nat) (d : Int) : Int :=
  let doy : Int := (monthCum m : Int) + (if 2 < m && isLeapYear y then 1 else 0) + d
  365 * (y - 1) + Int.fdiv (y - 1) 4 - Int.fdiv (y - 1) 100 + Int.fdiv (y - 1) 400
    + doy - 719163

/-- Inverse of `civilToDays`: serial day to (year, month, day-of-month). -/
def civilFromDays (serial : Int) : Int × Nat × Nat :=
  let z := serial + 719468
  let era := Int.fdiv z 146097
  let doe := (z - era * 146097).toNat
  let yoe := (doe - doe / 1460 + doe / 36524 - doe / 146096) / 365
  let y : Int := (yoe : Int) + era * 400
  let doy := doe - (365 * yoe + yoe / 4 - yoe / 100)
  let mp := (5 * doy + 2) / 153
  let d := doy - (153 * mp + 2) / 5 + 1
  let m := if mp < 10 then mp + 3 else mp - 9
  (if m ≤ 2 then y + 1 else y, m, d)

/-- JS `new Date(year, month0, mday)` as a serial day: years 0-99 are
read as 1900-1999, out-of-range month indexes and days roll over. -/
def mkJSDate (year month0 mday : Int) : Int :=
  let y0 := if 0 ≤ year && year ≤ 99 then year + 1900 else year
  let ym := y0 * 12 + month0
  civilToDays (Int.fdiv ym 12) ((Int.emod ym 12).toNat + 1) mday

def padZero (w : Nat) (s : String) : String :=
  String.mk (List.replicate (w - s.length) '0') ++ s

/-- Model of dayjs `format(YYYY-MM-DD)` of a serial day (years 1..9999). -/
def formatISO (serial : Int) : String :=
  let c := civilFromDays serial
  padZero 4 (toString c.1.toNat) ++ "-" ++ padZero 2 (toString c.2.1)
    ++ "-" ++ padZero 2 (toString c.2.2)

/-- dayjs `.day()`: 0 = Sunday .. 6 = Saturday (1970-01-01 was a Thursday). -/
def dayOfWeek (d : Int) : Nat := ((d + 4).emod 7).toNat

/-! ## MurmurHash3 x86 32-bit

Model of the external `murmurhash3` npm module: `murmur32HexSync(key)` is
the standard MurmurHash3 x86 32-bit digest of the UTF-8 bytes of `key`
with seed 0, rendered as zero-padded lowercase hex.  The keys hashed by
this program are ASCII, so the bytes are the character codes. -/

def rotl32 (x r : Nat) : Nat := ((x <<< r) % 4294967296) ||| (x >>> (32 - r))

def mmix (k : Nat) : Nat :=
  let k1 := (k * 3432918353) % 4294967296
  let k2 := rotl32 k1 15
  (k2 * 461845907) % 4294967296

def murmurTailK : List Nat → Nat
  | b0 :: b1 :: b2 :: _ => b0 ||| (b1 <<< 8) ||| (b2 <<< 16)
  | b0 :: b1 :: _ => b0 ||| (b1 <<< 8)
  | b0 :: _ => b0
  | [] => 0

def murmurBody : List Nat → Nat → Nat
  | b0 :: b1 :: b2 :: b3 :: rest, h =>
    let k := b0 ||| (b1 <<< 8) ||| (b2 <<< 16) ||| (b3 <<< 24)
    let h1 := h ^^^ mmix k
    let h2 := rotl32 h1 13
    murmurBody rest ((h2 * 5 + 3864292196) % 4294967296)
  | tail, h => if tail.length == 0 then h else h ^^^ mmix (murmurTailK tail)

def fmix32 (h0 : Nat) : Nat :=
  let h1 := h0 ^^^ (h0 >>> 16)
  let h2 := (h1 * 2246822507) % 4294967296
  let h3 := h2 ^^^ (h2 >>> 13)
  let h4 := (h3 * 3266489909) % 4294967296
  h4 ^^^ (h4 >>> 16)

def murmur3x86_32 (bytes : List Nat) (seed : Nat) : Nat :=
  fmix32 (murmurBody bytes seed ^^^ (bytes.length % 4294967296))

def murmur32HexSync (s : String) : String :=
  let ds := Nat.toDigits 16 (murmur3x86_32 (s.toList.map Char.toNat) 0)
  String.mk (List.replicate (8 - ds.length) '0' ++ ds)

/-! ## src/yahrzeit_email.ts: data model

`StringDateMap` maps dedup/opt-out keys to dates; the program only ever
tests key presence on it (the stored dates are non-null and so truthy).
The `hd` field of `SubInfo` (used only to render the message body) and
the message text itself are not modelled. -/

abbrev StringDateMap := List (String × Int)

def mapHas (m : StringDateMap) (k : String) : Bool := (m.lookup k).isSome

structure SubBase where
  num : Nat
  dd : String
  mm : String
  yy : String
  sunset : Option FieldVal
  type : String
  name : String
  day : Int
  hash : String
deriving DecidableEq, Repr

structure SubInfo extends SubBase where
  id : String
  anniversaryId : String
  hyear : Nat
  calendarId : String
  emailAddress : String
  reminderDays : Nat
  observed : Option Int := none
  diff : Option Int := none
deriving DecidableEq, Repr

/-- The external calendar collaborator (from the hebcal hdate library):
`getYahrzeitHD`/`getBirthdayHD` take the Hebrew target year and the
anchor date and return the observed date for that cycle, or nothing when
the recurrence does not land in that cycle.  The code converts the
returned Hebrew date to Gregorian via `new HDate(hd0).greg()`; that
composition is modelled here as directly returning the observed
Gregorian serial day. -/
structure Calc where
  getYahrzeitHD : Nat → Int → Option Int
  getBirthdayHD : Nat → Int → Option Int

/-- One row of the subscription query: `e.id`, `e.email_addr`,
`e.calendar_id`, `y.contents` (the parsed JSON payload).  `id` is kept
in its string rendering, as interpolated into every key. -/
structure DbRow where
  id : String
  emailAddr : String
  calendarId : String
  contents : JSMap

/-- The loop mutates `contents` to stash `id`, `calendarId` and
`emailAddress` next to the payload fields; those three extra keys start
with letters other than `y`/`x` and are invisible to the slot scan, so
they are modelled as separate fields. -/
structure Contents where
  query : JSMap
  id : String
  calendarId : String
  emailAddress : String

/-- One row of a `yahrzeit_sent7`/`yahrzeit_sent1` table. -/
structure SentDbRow where
  yahrzeitId : String
  nameHash : Option String
  num : Nat
  hyear : Nat
  sentDate : Int
deriving DecidableEq, Repr

/-- One row of `yahrzeit_optout` (already filtered to `deactivated = 1`). -/
structure OptOutDbRow where
  emailId : String
  nameHash : Option String
  num : Nat
  updated : Int
deriving DecidableEq, Repr

/-! ## src/yahrzeit_email.ts: subscription loading and normalization -/

def jsWhitespace (c : Char) : Bool := c == ' ' || c == '\t' || c == '\n' || c == '\r'

/-- First character of the free-text type field, case-insensitively
(`str.toLowerCase()[0]` of the source; the characters involved are ASCII, so
lowercasing the string and taking its head is per-character lowercasing);
anything unrecognized or absent defaults to Yahrzeit. -/
def getAnniversaryType (v : Option FieldVal) : String :=
  match v with
  | some (.str str) =>
    match str.toList.map Char.toLower with
    | 'y' :: _ => "Yahrzeit"
    | 'b' :: _ => "Birthday"
    | 'a' :: _ => "Anniversary"
    | 'o' :: _ => "Other"
    | _ => "Yahrzeit"
  | _ => "Yahrzeit"

/-- JS `String.trim` over the ASCII whitespace occurring in these
payloads. -/
def jsTrim (s : String) : String :=
  String.mk (((s.toList.dropWhile jsWhitespace).reverse.dropWhile jsWhitespace).reverse)

def getAnniversaryName (query : JSMap) (id : Nat) (type : String) : String :=
  let name0 := match jget query ("n" ++ toString id) with
    | some (.str s) => jsTrim s
    | _ => ""
  if name0 != "" then name0
  else (if type == "Other" then "Untitled" else "Person") ++ toString id

/-- JS `s.substring(a, b)` for ASCII strings. -/
def subStr (s : String) (a b : Nat) : String := String.mk ((s.toList.drop a).take (b - a))

/-- Source `gm.startsWith(0) ? gm[1] : gm`: a leading zero is stripped
to the second character (applied to the two-character month and day
pieces of the packed field). -/
def stripLeadZero (s : String) : String :=
  match s.toList with
  | '0' :: _ => subStr s 1 2
  | _ => s

structure YearMonthDay where
  yy : Option FieldVal
  mm : Option FieldVal
  dd : Option FieldVal
deriving DecidableEq, Repr

/-- Source `getDateForId`: the packed 10-character `x{n}` field wins when it is
a string of length 10; otherwise the legacy separate `y{n}`/`m{n}`/`d{n}`
fields are passed through unchecked. -/
def getDateForId (query : JSMap) (id : Nat) : YearMonthDay :=
  match jget query ("x" ++ toString id) with
  | some (.str date) =>
    if date.length == 10 then
      let yy := subStr date 0 4
      let mm := stripLeadZero (subStr date 5 7)
      let dd := stripLeadZero (subStr date 8 10)
      ⟨some (.str yy), some (.str mm), some (.str dd)⟩
    else
      ⟨jget query ("y" ++ toString id), jget query ("m" ++ toString id),
       jget query ("d" ++ toString id)⟩
  | _ =>
      ⟨jget query ("y" ++ toString id), jget query ("m" ++ toString id),
       jget query ("d" ++ toString id)⟩

/-- Source test of the sunset flag: the value is the string on, the
string 1, or the number 1. -/
def sunsetOn (v : Option FieldVal) : Bool :=
  match v with
  | some (.str s) => s == "on" || s == "1"
  | some (.num n) => n == 1
  | none => false

def getYahrzeitDetailForId (query : JSMap) (num : Nat) : Option SubBase :=
  let ymd := getDateForId query num
  if empty ymd.dd || empty ymd.mm || empty ymd.yy then none
  else
    match ymd.yy, ymd.mm, ymd.dd with
    | some (.str yy), some (.str mm), some (.str dd) =>
      match parseIntJS yy, parseIntJS mm, parseIntJS dd with
      | some year, some month, some mday =>
        -- `if (!mday || !month || !year)`: 0 (and NaN) are falsy
        if mday == 0 || month == 0 || year == 0 then none
        else
          let type := getAnniversaryType (jget query ("t" ++ toString num))
          let sunset := jget query ("s" ++ toString num)
          let name := getAnniversaryName query num type
          let day0 := mkJSDate year (month - 1) mday
          let day := if sunsetOn sunset then day0 + 1 else day0
          let hash := murmur32HexSync (formatISO day ++ "-" ++ type)
          some ⟨num, dd, mm, yy, sunset, type, name, day, hash⟩
      | _, _, _ => none
    | _, _, _ => none

def getMaxYahrzeitId (query : JSMap) : Nat :=
  query.foldl
    (fun mx kv =>
      let k := kv.1
      let k0 := k.take 1
      if (k0 == "y" || k0 == "x") && isNumKey k then
        match jsPlusNat (k.drop 1) with
        | none => mx
        | some id0 =>
          let id := if empty (jget query k) then 0
            else if k0 == "y" &&
                (empty (jget query ("d" ++ toString id0)) ||
                 empty (jget query ("m" ++ toString id0))) then 0
            else id0
          if mx < id then id else mx
      else mx)
    0

/-! ## src/yahrzeit_email.ts: eligibility filter and dedup ledger -/

/-- Source `loadOptOut`: build the opt-out map from `yahrzeit_optout` rows; a
null `name_hash` gives the un-keyed form `emailId.num`, otherwise
`emailId.num.hash`. -/
def loadOptOut (rows : List OptOutDbRow) : StringDateMap :=
  rows.map (fun row =>
    let key0 := row.emailId ++ "." ++ toString row.num
    (match row.nameHash with
     | none => key0
     | some h => key0 ++ "." ++ h, row.updated))

/-- Source `loadRecentSent`: build the sent map of one ledger table from rows
whose `datediff(NOW(), sent_date) < 365` (the SQL retention filter),
keyed `yahrzeitId.num.hyear` plus `.hash` when `name_hash` is non-null. -/
def loadRecentSent (now : Int) (rows : List SentDbRow) : StringDateMap :=
  (rows.filter (fun row => now - row.sentDate < 365)).map (fun row =>
    let key0 := row.yahrzeitId ++ "." ++ toString row.num ++ "." ++ toString row.hyear
    (match row.nameHash with
     | none => key0
     | some h => key0 ++ "." ++ h, row.sentDate))

/-- Source `skipOptOut`: true when the opt-out map holds the slot-level key
`id.num` or the occurrence-scoped key `id.num.hash`. -/
def skipOptOut (subscriptionId : String) (info : SubBase) (optout : StringDateMap) : Bool :=
  let idNum := subscriptionId ++ "." ++ toString info.num
  mapHas optout idNum || mapHas optout (idNum ++ "." ++ info.hash)

/-- Source `computeAnniversary`: consult the external calculator for the
observed date of this cycle; on a hit record it and the whole-day
difference to today, otherwise mark the occurrence absent. -/
def computeAnniversary (cal : Calc) (today : Int) (info : SubInfo) : SubInfo :=
  let hd0 := if info.type == "Yahrzeit"
    then cal.getYahrzeitHD info.hyear info.day
    else cal.getBirthdayHD info.hyear info.day
  match hd0 with
  | some observed => { info with observed := some observed, diff := some (observed - today) }
  | none => { info with observed := none }

/-- Source `makeSubInfo`: reject when the sent map of this window holds
`id.num.hyear` or `id.num.hyear.hash`; otherwise compute the observed
date and emit the candidate exactly when `0 <= diff < maxDays`. -/
def makeSubInfo (cal : Calc) (today : Int) (contents : Contents) (num : Nat)
    (info0 : SubBase) (hyear : Nat) (sent : StringDateMap) (maxDays : Nat) :
    Option SubInfo :=
  let id := contents.id
  let idNum := id ++ "." ++ toString num
  let keyPre := idNum ++ "." ++ toString hyear
  if mapHas sent keyPre || mapHas sent (keyPre ++ "." ++ info0.hash) then none
  else
    let info : SubInfo :=
      { toSubBase := info0, id := id,
        anniversaryId := id ++ "." ++ toString hyear ++ "." ++ info0.hash
          ++ "." ++ toString num,
        hyear := hyear, calendarId := contents.calendarId,
        emailAddress := contents.emailAddress, reminderDays := maxDays }
    let info := computeAnniversary cal today info
    match info.observed, info.diff with
    | some _, some d => if 0 ≤ d && d < (maxDays : Int) then some info else none
    | _, _ => none

/-- The hyear candidates: the current Hebrew year, plus the next one when
today falls in Elul (the final month). -/
def hyearsFor (htodayYear : Nat) (isElul : Bool) : List Nat :=
  if isElul then [htodayYear, htodayYear + 1] else [htodayYear]

/-- The lookahead windows, in the order the inner loop tries them. -/
def windowDays : List Nat := [7, 1]

/-- The inner window loop of `loadSubsFromDb`:
`for (const ndays of [7, 1]) { ... if (info) { push; break; } }` -/
def tryWindows (cal : Calc) (today : Int) (c : Contents) (num : Nat) (info0 : SubBase)
    (hyear : Nat) (sent7 sent1 : StringDateMap) : Option SubInfo :=
  windowDays.findSome? (fun ndays =>
    makeSubInfo cal today c num info0 hyear (if ndays == 7 then sent7 else sent1) ndays)

/-- The body of the per-slot loop of `loadSubsFromDb`: skip a blank slot
and an opted-out slot, otherwise collect at most one candidate per hyear
from the window loop. -/
def slotCandidates (cal : Calc) (today : Int) (htodayYear : Nat) (isElul : Bool)
    (sent7 sent1 optout : StringDateMap) (c : Contents) (num : Nat) : List SubInfo :=
  match getYahrzeitDetailForId c.query num with
  | none => []
  | some info0 =>
    if skipOptOut c.id info0 optout then []
    else (hyearsFor htodayYear isElul).filterMap
      (fun hyear => tryWindows cal today c num info0 hyear sent7 sent1)

/-- The body of the per-row loop of `loadSubsFromDb`: skip the whole
subscription on a global (slot 0) opt-out, then walk slots 1..maxId. -/
def processDbRow (cal : Calc) (today : Int) (htodayYear : Nat) (isElul : Bool)
    (sent7 sent1 optout : StringDateMap) (row : DbRow) : List SubInfo :=
  if mapHas optout (row.id ++ ".0") then []
  else
    let c : Contents := ⟨row.contents, row.id, row.calendarId, row.emailAddr⟩
    (List.range' 1 (getMaxYahrzeitId row.contents)).flatMap
      (slotCandidates cal today htodayYear isElul sent7 sent1 optout c)

/-- Source `loadSubsFromDb` over all active subscription rows.  `htodayYear` and
`isElul` stand for `new HDate(today).getFullYear()` and the Elul test,
both computed by the external Hebrew calendar; `sent7`/`sent1` are the
maps loaded from the two ledger tables. -/
def loadSubsFromDb (cal : Calc) (today : Int) (htodayYear : Nat) (isElul : Bool)
    (rows : List DbRow) (optout sent7 sent1 : StringDateMap) : List SubInfo :=
  rows.flatMap (processDbRow cal today htodayYear isElul sent7 sent1 optout)

/-! ## src/yahrzeit_email.ts: dispatch and ledger commit -/

/-- Outcome of one transport attempt (resolves or throws). -/
inductive SendOutcome
  | ok
  | fail (err : String)
deriving DecidableEq, Repr

/-- Source `sendMail`: a no-op success under `--dryrun`, otherwise the transport
outcome. -/
def sendMail (dryrun : Bool) (transport : SendOutcome) : SendOutcome :=
  if dryrun then .ok else transport

/-- Observable result of `processAnniversary` for one candidate:
ledger rows written (tagged with the window n of the
`yahrzeit_sent{n}` table they go to), whether the error branch logged,
and whether `numSent` was incremented. -/
structure ProcResult where
  written : List (Nat × SentDbRow)
  errorLogged : Bool
  counted : Bool
deriving DecidableEq, Repr

/-- Source `processAnniversary`: try the send; only after it resolves (and not
under `--dryrun`) insert `(id, hash, num, hyear, NOW())` into
`yahrzeit_sent{reminderDays}`; a throw is caught, logged, and writes
nothing. -/
def processAnniversary (dryrun : Bool) (now : Int) (transport : SendOutcome)
    (info : SubInfo) : ProcResult :=
  match sendMail dryrun transport with
  | .ok =>
    if dryrun then ⟨[], false, true⟩
    else ⟨[(info.reminderDays, ⟨info.id, some info.hash, info.num, info.hyear, now⟩)],
          false, true⟩
  | .fail _ => ⟨[], true, false⟩

/-- The dispatch loop of `main`: every candidate is processed in order;
`transports` gives the per-candidate transport outcome. -/
def mainLoop (dryrun : Bool) (now : Int) (transports : List SendOutcome)
    (toSend : List SubInfo) : List ProcResult :=
  List.zipWith (processAnniversary dryrun now) transports toSend

/-! ## src/common.ts -/

/-- An event from the external holiday lookup, exposing its flags. -/
structure CalEvent where
  flags : Nat
deriving DecidableEq, Repr

/-- Value of `flags.CHAG` in the hebcal core library. -/
def flagsCHAG : Nat := 1

/-- Source `getChagOnDate`: first major-holiday event on the date, if any;
`holidays` stands for `HebrewCalendar.getHolidaysOnDate` (with its
`|| []` default folded in). -/
def getChagOnDate (holidays : Int → List CalEvent) (d : Int) : Option CalEvent :=
  (holidays d).find? (fun ev => (ev.flags &&& flagsCHAG) != 0)

/-- Source `shouldSendEmailToday`: never on a holiday; Thursday normally,
Wednesday when Thursday is a holiday, Tuesday when both Wednesday and
Thursday are. -/
def shouldSendEmailToday (holidays : Int → List CalEvent) (today : Int) : Bool :=
  if (getChagOnDate holidays today).isSome then false
  else if dayOfWeek today == 4 then true
  else if dayOfWeek today == 3 then (getChagOnDate holidays (today + 1)).isSome
  else if dayOfWeek today == 2 then
    (getChagOnDate holidays (today + 1)).isSome
      && (getChagOnDate holidays (today + 2)).isSome
  else false

/-! ## Whole-run view of the anniversary program -/

/-- Observable result of one invocation of yahrzeit_email. -/
structure RunResult where
  exitCode : Nat
  selected : List SubInfo
  ledgerWrites : List (Nat × SentDbRow)
deriving DecidableEq, Repr

/-- The module-level day gate and main loop of yahrzeit_email:
`if ((chag || today.day() === 6) && !argv.force) process.exit(0);`
runs before any subscription is loaded; otherwise the eligibility
filter and the dispatch loop run. -/
def yahrzeitProgram (holidays : Int → List CalEvent) (cal : Calc) (today : Int)
    (force dryrun : Bool) (htodayYear : Nat) (isElul : Bool)
    (rows : List DbRow) (optout sent7 sent1 : StringDateMap)
    (transports : List SendOutcome) : RunResult :=
  let chag := getChagOnDate holidays today
  if (chag.isSome || dayOfWeek today == 6) && !force then ⟨0, [], []⟩
  else
    let toSend := loadSubsFromDb cal today htodayYear isElul rows optout sent7 sent1
    let results := mainLoop dryrun today transports toSend
    ⟨0, toSend, results.flatMap (fun r => r.written)⟩

/-- Modelled from the spec: the ordering requirement of section 4.2
("a candidate must be evaluated against the shorter window first") as a
variant of the inner window loop that tries the 1-day window before the
7-day window, to be compared against `tryWindows`. -/
def tryWindowsSpecOrder (cal : Calc) (today : Int) (c : Contents) (num : Nat)
    (info0 : SubBase) (hyear : Nat) (sent7 sent1 : StringDateMap) : Option SubInfo :=
  [1, 7].findSome? (fun ndays =>
    makeSubInfo cal today c num info0 hyear (if ndays == 7 then sent7 else sent1) ndays)

/-! ## Concrete sample inputs

Used by the counterexamples and witnesses below. -/

/-- Serial day of 2025-03-10 (a Monday). -/
def sampleToday : Int := mkJSDate 2025 2 10

def sampleRow : DbRow :=
  ⟨"42", "a@b.example", "c1",
   [("x1", .str ("2020-03-15")), ("t1", .str ("y")), ("n1", .str ("Sarah"))]⟩

/-- A calculator placing the sample observance on `sampleToday` itself
(diff 0, qualifying under both lookahead windows). -/
def sampleCal : Calc := ⟨fun _ _ => some sampleToday, fun _ _ => some sampleToday⟩

def sampleContents : Contents := ⟨sampleRow.contents, "42", "c1", "a@b.example"⟩

/-- First run: both ledgers empty. -/
def c1run1 : List SubInfo :=
  loadSubsFromDb sampleCal sampleToday 5785 false [sampleRow] [] [] []

/-- The ledger rows committed by dispatching the first run successfully. -/
def c1written : List (Nat × SentDbRow) :=
  (mainLoop false sampleToday [.ok] c1run1).flatMap (fun r => r.written)

def c1sent7 : StringDateMap :=
  loadRecentSent sampleToday ((c1written.filter (fun p => p.1 == 7)).map (fun p => p.2))

def c1sent1 : StringDateMap :=
  loadRecentSent sampleToday ((c1written.filter (fun p => p.1 == 1)).map (fun p => p.2))

/-- Second run with the same today and the updated ledgers. -/
def c1run2 : List SubInfo :=
  loadSubsFromDb sampleCal sampleToday 5785 false [sampleRow] [] c1sent7 c1sent1

/-- Two recurrence entries with distinct anchor dates (consecutive days). -/
def c3Q1 : JSMap := [("x1", .str ("2023-11-13")), ("t1", .str ("y"))]

def c3Q2 : JSMap := [("x1", .str ("2023-11-14")), ("t1", .str ("y"))]

/-- Serial day of 2023-11-10. -/
def c3Today : Int := mkJSDate 2023 10 10

/-- Serial day of 2023-11-14, the common observed date of the two entries. -/
def c3Observed : Int := mkJSDate 2023 10 14

/-- A calculator on which both sample anchors observe on the same date in
the target cycle, as the hebcal yahrzeit rule does for real anchor pairs
(an anchor of 30 Cheshvan is observed on 1 Kislev in a year whose
Cheshvan has only 29 days, colliding with an anchor of 1 Kislev). -/
def c3Cal : Calc := ⟨fun _ _ => some c3Observed, fun _ _ => some c3Observed⟩

def c3C1 : Contents := ⟨c3Q1, "7", "cal7", "x@y.example"⟩

def c3C2 : Contents := ⟨c3Q2, "7", "cal7", "x@y.example"⟩

def c3Info1 : Option SubInfo :=
  (getYahrzeitDetailForId c3Q1 1).bind (fun i0 => makeSubInfo c3Cal c3Today c3C1 1 i0 5784 [] 7)

def c3Info2 : Option SubInfo :=
  (getYahrzeitDetailForId c3Q2 1).bind (fun i0 => makeSubInfo c3Cal c3Today c3C2 1 i0 5784 [] 7)

/-- The sample candidate run through the inner window loop with both
ledgers empty (it qualifies under both windows). -/
def c6Try : Option SubInfo :=
  (getYahrzeitDetailForId sampleRow.contents 1).bind
    (fun i0 => tryWindows sampleCal sampleToday sampleContents 1 i0 5785 [] [])

/-- The same candidate under the spec-ordered (shorter-first) loop. -/
def c6TrySpec : Option SubInfo :=
  (getYahrzeitDetailForId sampleRow.contents 1).bind
    (fun i0 => tryWindowsSpecOrder sampleCal sampleToday sampleContents 1 i0 5785 [] [])

/-- Packed and legacy encodings of 1990-04-05 (legacy month with a
leading zero). -/
def c7Q1 : JSMap := [("x2", .str ("1990-04-05")), ("t2", .str ("b"))]

def c7Q2 : JSMap :=
  [("y2", .str ("1990")), ("m2", .str ("04")), ("d2", .str ("5")), ("t2", .str ("b"))]

/-- A holiday lookup with no events at all. -/
def noHolidays : Int → List CalEvent := fun _ => []

/-- Serial day of 1970-01-03, a Saturday. -/
def sampleSaturday : Int := 2

/-- The normalized recurrence entry of `sampleRow`, slot 1. -/
def sampleBase : SubBase :=
  ⟨1, "15", "3", "2020", none, "Yahrzeit", "Sarah", mkJSDate 2020 2 15,
   murmur32HexSync ("2020-03-15-Yahrzeit")⟩

/-- The normalized entries of the packed and legacy C7 encodings. -/
def c7B1 : SubBase :=
  ⟨2, "5", "4", "1990", none, "Birthday", "Person2", mkJSDate 1990 3 5,
   murmur32HexSync ("1990-04-05-Birthday")⟩

def c7B2 : SubBase :=
  ⟨2, "5", "04", "1990", none, "Birthday", "Person2", mkJSDate 1990 3 5,
   murmur32HexSync ("1990-04-05-Birthday")⟩

/-- A concrete candidate (the sample entry realized in cycle 5785). -/
def sampleSub : SubInfo :=
  { toSubBase := sampleBase, id := "42",
    anniversaryId := "42.5785." ++ sampleBase.hash ++ ".1", hyear := 5785,
    calendarId := "c1", emailAddress := "a@b.example", reminderDays := 7,
    observed := some sampleToday, diff := some 0 }

/-! ## Sanity checks of the calendar and hash models -/

/-- MurmurHash3 x86 32-bit reference vector (seed 0). -/
theorem murmur_sanity : murmur3x86_32 ("test".toList.map Char.toNat) 0 = 0xba6bd213 := by
  decide

/-- Serial day 0 is 1970-01-01 and formats as such. -/
theorem calendar_sanity :
    civilToDays 1970 1 1 = 0 ∧ formatISO (mkJSDate 2020 2 15) = "2020-03-15" ∧
      dayOfWeek sampleSaturday = 6 := by
  decide

/-! ## Helper lemmas -/

theorem computeAnniversary_fields (cal : Calc) (today : Int) (info : SubInfo) :
    (computeAnniversary cal today info).id = info.id ∧
    (computeAnniversary cal today info).num = info.num ∧
    (computeAnniversary cal today info).hyear = info.hyear ∧
    (computeAnniversary cal today info).hash = info.hash ∧
    (computeAnniversary cal today info).reminderDays = info.reminderDays := by
  unfold computeAnniversary
  cases hif : (if info.type == "Yahrzeit"
    then cal.getYahrzeitHD info.hyear info.day
    else cal.getBirthdayHD info.hyear info.day) <;> simp

theorem makeSubInfo_fields (cal : Calc) (today : Int) (c : Contents) (num : Nat)
    (info0 : SubBase) (hyear : Nat) (sent : StringDateMap) (maxDays : Nat) (i : SubInfo)
    (h : makeSubInfo cal today c num info0 hyear sent maxDays = some i) :
    i.id = c.id ∧ i.num = info0.num ∧ i.hyear = hyear ∧ i.hash = info0.hash ∧
      i.reminderDays = maxDays := by
  unfold makeSubInfo at h
  simp only [] at h
  split at h
  · exact absurd h (by simp)
  · split at h
    · split at h
      · obtain rfl := Option.some.inj h
        exact computeAnniversary_fields cal today _
      · exact absurd h (by simp)
    · exact absurd h (by simp)

theorem tryWindows_eq (cal : Calc) (today : Int) (c : Contents) (num : Nat)
    (info0 : SubBase) (hyear : Nat) (sent7 sent1 : StringDateMap) :
    tryWindows cal today c num info0 hyear sent7 sent1 =
      match makeSubInfo cal today c num info0 hyear sent7 7 with
      | some i => some i
      | none => makeSubInfo cal today c num info0 hyear sent1 1 := by
  unfold tryWindows windowDays
  cases h7 : makeSubInfo cal today c num info0 hyear sent7 7 with
  | some j => simp [List.findSome?_cons, h7]
  | none =>
    cases h1 : makeSubInfo cal today c num info0 hyear sent1 1 <;>
      simp [List.findSome?_cons, h7, h1]

theorem tryWindows_fields (cal : Calc) (today : Int) (c : Contents) (num : Nat)
    (info0 : SubBase) (hyear : Nat) (sent7 sent1 : StringDateMap) (i : SubInfo)
    (h : tryWindows cal today c num info0 hyear sent7 sent1 = some i) :
    i.id = c.id ∧ i.num = info0.num ∧ i.hyear = hyear ∧ i.hash = info0.hash := by
  rw [tryWindows_eq] at h
  cases h7 : makeSubInfo cal today c num info0 hyear sent7 7 with
  | some j =>
    rw [h7] at h
    obtain rfl := Option.some.inj h
    obtain ⟨h1, h2, h3, h4, _⟩ := makeSubInfo_fields _ _ _ _ _ _ _ _ _ h7
    exact ⟨h1, h2, h3, h4⟩
  | none =>
    rw [h7] at h
    obtain ⟨h1, h2, h3, h4, _⟩ := makeSubInfo_fields _ _ _ _ _ _ _ _ _ h
    exact ⟨h1, h2, h3, h4⟩

theorem getYahrzeitDetailForId_num (q : JSMap) (n : Nat) (i0 : SubBase)
    (h : getYahrzeitDetailForId q n = some i0) : i0.num = n := by
  unfold getYahrzeitDetailForId at h
  simp only [] at h
  repeat' split at h
  all_goals
    first
      | (obtain rfl := Option.some.inj h; rfl)
      | exact absurd h (by simp)

theorem mem_slotCandidates (cal : Calc) (today : Int) (hy : Nat) (el : Bool)
    (s7 s1 optout : StringDateMap) (c : Contents) (num : Nat) (i : SubInfo)
    (h : i ∈ slotCandidates cal today hy el s7 s1 optout c num) :
    i.id = c.id ∧ i.num = num ∧ i.hyear ∈ hyearsFor hy el ∧
      ∃ info0, getYahrzeitDetailForId c.query num = some info0 ∧
        skipOptOut c.id info0 optout = false ∧ info0.hash = i.hash := by
  unfold slotCandidates at h
  split at h
  · exact absurd h (by simp)
  · rename_i info0 hdet
    split at h
    · exact absurd h (by simp)
    · rename_i hskip
      obtain ⟨hyear, hmem, htw⟩ := List.mem_filterMap.mp h
      obtain ⟨h1, h2, h3, h4⟩ := tryWindows_fields _ _ _ _ _ _ _ _ _ htw
      have hnum := getYahrzeitDetailForId_num _ _ _ hdet
      refine ⟨h1, h2.trans hnum, h3 ▸ hmem, info0, hdet, ?_, h4.symm⟩
      exact Bool.of_not_eq_true hskip

theorem mem_processDbRow (cal : Calc) (today : Int) (hy : Nat) (el : Bool)
    (s7 s1 optout : StringDateMap) (row : DbRow) (i : SubInfo)
    (h : i ∈ processDbRow cal today hy el s7 s1 optout row) :
    i.id = row.id ∧ mapHas optout (row.id ++ ".0") = false ∧
      i.hyear ∈ hyearsFor hy el ∧
      ∃ info0, getYahrzeitDetailForId row.contents i.num = some info0 ∧
        skipOptOut row.id info0 optout = false ∧ info0.hash = i.hash := by
  unfold processDbRow at h
  split at h
  · exact absurd h (by simp)
  · rename_i hglob
    simp only [] at h
    obtain ⟨num, _, hmem⟩ := List.mem_flatMap.mp h
    obtain ⟨h1, h2, h3, info0, hdet, hskip, hhash⟩ :=
      mem_slotCandidates _ _ _ _ _ _ _ _ _ _ hmem
    refine ⟨h1, Bool.of_not_eq_true hglob, h3, info0, ?_, hskip, hhash⟩
    rw [h2]
    exact hdet

theorem getYahrzeitDetailForId_shape (q : JSMap) (n : Nat) (i0 : SubBase)
    (h : getYahrzeitDetailForId q n = some i0) :
    ∃ year month mday : Int,
      parseIntJS i0.yy = some year ∧ parseIntJS i0.mm = some month ∧
      parseIntJS i0.dd = some mday ∧
      i0.sunset = jget q ("s" ++ toString n) ∧
      i0.type = getAnniversaryType (jget q ("t" ++ toString n)) ∧
      i0.day = (if sunsetOn i0.sunset then mkJSDate year (month - 1) mday + 1
                else mkJSDate year (month - 1) mday) ∧
      i0.hash = murmur32HexSync (formatISO i0.day ++ "-" ++ i0.type) := by
  unfold getYahrzeitDetailForId at h
  simp only [] at h
  repeat' split at h
  all_goals
    first
      | (obtain rfl := Option.some.inj h
         exact ⟨_, _, _, by assumption, by assumption, by assumption, rfl, rfl,
           by simp [*], rfl⟩)
      | exact absurd h (by simp)

/-! ## Claim C1 -/

/-- C1 (amended): for an occurrence recorded in the sent ledger of a
given lookahead window, the Eligibility Filter consulting that ledger
does not select it again: `makeSubInfo` returns false whenever the sent
map it is given contains the key `id.slot.hyear` or the key
`id.slot.hyear.hash` for the candidate.  (A re-run with the same today
may still select the occurrence under the other configured window, as
`claim1_counterexample` shows.) -/
theorem claim1_idempotent_per_window (cal : Calc) (today : Int) (c : Contents)
    (num : Nat) (info0 : SubBase) (hyear : Nat) (sent : StringDateMap) (maxDays : Nat)
    (h : mapHas sent ((c.id ++ "." ++ toString num) ++ "." ++ toString hyear) = true ∨
      mapHas sent (((c.id ++ "." ++ toString num) ++ "." ++ toString hyear)
        ++ "." ++ info0.hash) = true) :
    makeSubInfo cal today c num info0 hyear sent maxDays = none := by
  unfold makeSubInfo
  rcases h with h | h <;> simp [h]

/-- C1 counterexample to the claim as stated: the sample occurrence is
dispatched and recorded under the 7-day window on a day with diff 0; a
second run with the same today and the updated ledgers selects the very
same occurrence (same id, slot, cycle, key) again, under the 1-day
window, because that window consults the other sent table. -/
theorem claim1_counterexample :
    c1run1.map (fun i => (i.id, i.num, i.hyear, i.reminderDays)) = [("42", 1, 5785, 7)] ∧
    c1run2.map (fun i => (i.id, i.num, i.hyear, i.hash)) =
      c1run1.map (fun i => (i.id, i.num, i.hyear, i.hash)) ∧
    c1run2.map (fun i => i.reminderDays) = [1] := by
  refine ⟨?_, ?_, ?_⟩ <;> rfl

theorem claim1_witness :
    mapHas [("42.1.5785", 0)] (("42" ++ "." ++ toString 1) ++ "." ++ toString 5785) = true ∧
      makeSubInfo sampleCal sampleToday sampleContents 1 sampleBase 5785
        [("42.1.5785", 0)] 7 = none :=
  ⟨by decide,
   claim1_idempotent_per_window sampleCal sampleToday sampleContents 1 sampleBase 5785
     [("42.1.5785", 0)] 7 (Or.inl (by decide))⟩

theorem makeSubInfo_emit_iff (cal : Calc) (today : Int) (c : Contents) (num : Nat)
    (info0 : SubBase) (hyear : Nat) (sent : StringDateMap) (maxDays : Nat) (g : Int)
    (h1 : mapHas sent ((c.id ++ "." ++ toString num) ++ "." ++ toString hyear) = false)
    (h2 : mapHas sent (((c.id ++ "." ++ toString num) ++ "." ++ toString hyear)
      ++ "." ++ info0.hash) = false)
    (hobs : (if info0.type == "Yahrzeit" then cal.getYahrzeitHD hyear info0.day
             else cal.getBirthdayHD hyear info0.day) = some g) :
    (makeSubInfo cal today c num info0 hyear sent maxDays).isSome = true ↔
      (0 ≤ g - today ∧ g - today < (maxDays : Int)) := by
  unfold makeSubInfo computeAnniversary
  simp only [h1, h2, Bool.or_self, Bool.false_eq_true, if_false, hobs]
  split <;> rename_i hcond
  · simp only [Option.isSome_some, true_iff]
    simpa using hcond
  · simp only [Option.isSome_none, Bool.false_eq_true, false_iff]
    simpa using hcond

/-! ## Claim C5 -/

/-- C5 (confirmed): for a candidate whose dedup keys are absent from the
sent map and for which the calculator returns an observed date, letting
diff be the whole-day difference observed minus today, the candidate is
emitted iff `0 ≤ diff < lookaheadDays`; in particular
`diff = lookaheadDays` is excluded, `diff = lookaheadDays - 1` is
included, and `diff = -1` is excluded. -/
theorem claim5_diff_window (cal : Calc) (today : Int) (c : Contents) (num : Nat)
    (info0 : SubBase) (hyear : Nat) (sent : StringDateMap) (maxDays : Nat) (g : Int)
    (h1 : mapHas sent ((c.id ++ "." ++ toString num) ++ "." ++ toString hyear) = false)
    (h2 : mapHas sent (((c.id ++ "." ++ toString num) ++ "." ++ toString hyear)
      ++ "." ++ info0.hash) = false)
    (hobs : (if info0.type == "Yahrzeit" then cal.getYahrzeitHD hyear info0.day
             else cal.getBirthdayHD hyear info0.day) = some g) :
    (makeSubInfo cal today c num info0 hyear sent maxDays).isSome = true ↔
      (0 ≤ g - today ∧ g - today < (maxDays : Int)) :=
  makeSubInfo_emit_iff cal today c num info0 hyear sent maxDays g h1 h2 hobs

theorem claim5_witness :
    mapHas [] ((sampleContents.id ++ "." ++ toString 1) ++ "." ++ toString 5785) = false ∧
      ((makeSubInfo sampleCal sampleToday sampleContents 1 sampleBase 5785 [] 7).isSome
          = true ↔
        (0 ≤ sampleToday - sampleToday ∧ sampleToday - sampleToday < (7 : Int))) :=
  ⟨by decide,
   claim5_diff_window sampleCal sampleToday sampleContents 1 sampleBase 5785 [] 7
     sampleToday (by decide) (by decide) (by decide)⟩

/-! ## Claim C4 -/

/-- C4 (confirmed): a throwing send writes no ledger row and is logged
while the loop continues: a failed transport yields no insert and an
error log; any written row implies the send resolved successfully (and
no dryrun) and is the row for exactly that candidate; and the dispatch
loop processes every candidate regardless of individual outcomes. -/
theorem claim4_failure_isolation :
    (∀ (now : Int) (e : String) (info : SubInfo),
      processAnniversary false now (.fail e) info = ⟨[], true, false⟩) ∧
    (∀ (dryrun : Bool) (now : Int) (t : SendOutcome) (info : SubInfo),
      (processAnniversary dryrun now t info).written ≠ [] →
        sendMail dryrun t = .ok ∧ dryrun = false ∧
        (processAnniversary dryrun now t info).written =
          [(info.reminderDays, ⟨info.id, some info.hash, info.num, info.hyear, now⟩)]) ∧
    (∀ (dryrun : Bool) (now : Int) (ts : List SendOutcome) (toSend : List SubInfo),
      ts.length = toSend.length →
        (mainLoop dryrun now ts toSend).length = toSend.length) := by
  refine ⟨fun now e info => rfl, ?_, ?_⟩
  · intro dryrun now t info hw
    cases dryrun <;> cases t <;>
      first
        | exact absurd rfl hw
        | exact ⟨rfl, rfl, rfl⟩
  · intro dryrun now ts toSend hlen
    simp [mainLoop, hlen]

theorem claim4_witness :
    processAnniversary false 0 (.fail ("boom")) sampleSub = ⟨[], true, false⟩ ∧
      ((processAnniversary false 0 .ok sampleSub).written ≠ [] →
        sendMail false .ok = .ok ∧ (false : Bool) = false ∧
        (processAnniversary false 0 .ok sampleSub).written =
          [(sampleSub.reminderDays,
            ⟨sampleSub.id, some sampleSub.hash, sampleSub.num, sampleSub.hyear, 0⟩)]) ∧
      (mainLoop false 0 [.ok, .fail ("x")] [sampleSub, sampleSub]).length = 2 :=
  ⟨claim4_failure_isolation.1 0 ("boom") sampleSub,
   claim4_failure_isolation.2.1 false 0 .ok sampleSub,
   claim4_failure_isolation.2.2 false 0 [.ok, .fail ("x")] [sampleSub, sampleSub] (by decide)⟩

/-! ## Claim C9 -/

/-- C9 (confirmed): the weekly-digest send-today predicate is true on a
Thursday that is not a major holiday; on a Wednesday only if Thursday is
a major holiday; on a Tuesday only if both Wednesday and Thursday are;
false on every other weekday; and false whenever today itself is a major
holiday. -/
theorem claim9_weekday_cascade (holidays : Int → List CalEvent) (today : Int) :
    shouldSendEmailToday holidays today =
      (!(getChagOnDate holidays today).isSome &&
        ((dayOfWeek today == 4) ||
         ((dayOfWeek today == 3) && (getChagOnDate holidays (today + 1)).isSome) ||
         ((dayOfWeek today == 2) && (getChagOnDate holidays (today + 1)).isSome
            && (getChagOnDate holidays (today + 2)).isSome))) := by
  unfold shouldSendEmailToday
  cases hc : (getChagOnDate holidays today).isSome <;>
    cases h4 : (dayOfWeek today == 4) <;>
    cases h3 : (dayOfWeek today == 3) <;>
    cases h2 : (dayOfWeek today == 2) <;>
    (simp [hc, h4, h3, h2]; try tauto)

/-! ## Claim C10 -/

/-- C10 (confirmed): without the force flag, when the run date is a
Saturday or carries a major-holiday event, the anniversary program exits
with code 0 before loading any subscription: no candidate is selected
and no sent-ledger row is written. -/
theorem claim10_day_gate (holidays : Int → List CalEvent) (cal : Calc) (today : Int)
    (dryrun : Bool) (htodayYear : Nat) (isElul : Bool) (rows : List DbRow)
    (optout sent7 sent1 : StringDateMap) (transports : List SendOutcome)
    (hgate : (getChagOnDate holidays today).isSome = true ∨ dayOfWeek today = 6) :
    yahrzeitProgram holidays cal today false dryrun htodayYear isElul rows optout
      sent7 sent1 transports = ⟨0, [], []⟩ := by
  unfold yahrzeitProgram
  rcases hgate with h | h <;> simp [h]

theorem claim10_witness :
    ((getChagOnDate noHolidays sampleSaturday).isSome = true ∨
        dayOfWeek sampleSaturday = 6) ∧
      yahrzeitProgram noHolidays sampleCal sampleSaturday false false 5785 false
        [sampleRow] [] [] [] [.ok] = ⟨0, [], []⟩ :=
  ⟨Or.inr (by decide),
   claim10_day_gate noHolidays sampleCal sampleSaturday false 5785 false [sampleRow]
     [] [] [] [.ok] (Or.inr (by decide))⟩

/-! ## Claim C8 -/

/-- C8 (confirmed): a subscription-level opt-out (slot 0) keeps every
slot of that subscription out of the run output; a slot-level opt-out
(key without a hash) keeps that slot out for every target cycle; and
`skipOptOut` suppresses exactly when the slot-level key or the
occurrence-scoped key of the computed hash of the candidate is present, so a
slot whose date is edited to a different key is no longer suppressed by
an occurrence-scoped opt-out alone. -/
theorem claim8_optout_semantics :
    (∀ (cal : Calc) (today : Int) (hy : Nat) (el : Bool) (rows : List DbRow)
        (optout s7 s1 : StringDateMap) (rid : String),
      mapHas optout (rid ++ ".0") = true →
        ∀ i ∈ loadSubsFromDb cal today hy el rows optout s7 s1, i.id ≠ rid) ∧
    (∀ (cal : Calc) (today : Int) (hy : Nat) (el : Bool) (rows : List DbRow)
        (optout s7 s1 : StringDateMap) (rid : String) (num : Nat),
      mapHas optout (rid ++ "." ++ toString num) = true →
        ∀ i ∈ loadSubsFromDb cal today hy el rows optout s7 s1,
          ¬(i.id = rid ∧ i.num = num)) ∧
    (∀ (sid : String) (info : SubBase) (optout : StringDateMap),
      skipOptOut sid info optout = true ↔
        (mapHas optout (sid ++ "." ++ toString info.num) = true ∨
          mapHas optout ((sid ++ "." ++ toString info.num) ++ "." ++ info.hash) = true)) := by
  refine ⟨?_, ?_, ?_⟩
  · intro cal today hy el rows optout s7 s1 rid h i hi hieq
    obtain ⟨row, _, hmem⟩ := List.mem_flatMap.mp hi
    obtain ⟨hid, hglob, _, _⟩ := mem_processDbRow _ _ _ _ _ _ _ _ _ hmem
    rw [hieq.symm.trans hid] at h
    exact absurd (hglob.symm.trans h) (by simp)
  · intro cal today hy el rows optout s7 s1 rid num h i hi hand
    obtain ⟨hieq, hnumeq⟩ := hand
    obtain ⟨row, _, hmem⟩ := List.mem_flatMap.mp hi
    obtain ⟨hid, _, _, info0, hdet, hskip, _⟩ := mem_processDbRow _ _ _ _ _ _ _ _ _ hmem
    have hnum0 : info0.num = num := (getYahrzeitDetailForId_num _ _ _ hdet).trans hnumeq
    simp only [skipOptOut, Bool.or_eq_false_iff] at hskip
    rw [hnum0] at hskip
    rw [hieq.symm.trans hid] at h
    exact absurd (hskip.1.symm.trans h) (by simp)
  · intro sid info optout
    simp [skipOptOut]

theorem claim8_witness :
    mapHas [("42.0", 0)] ("42" ++ ".0") = true ∧
      (∀ i ∈ loadSubsFromDb sampleCal sampleToday 5785 false [sampleRow]
          [("42.0", 0)] [] [], i.id ≠ "42") ∧
      (skipOptOut ("42") sampleBase [("42.1", 0)] = true ↔
        (mapHas [("42.1", 0)] ("42" ++ "." ++ toString sampleBase.num) = true ∨
          mapHas [("42.1", 0)]
            (("42" ++ "." ++ toString sampleBase.num) ++ "." ++ sampleBase.hash) = true)) :=
  ⟨by decide,
   claim8_optout_semantics.1 sampleCal sampleToday 5785 false [sampleRow]
     [("42.0", 0)] [] [] ("42") (by decide),
   claim8_optout_semantics.2.2 ("42") sampleBase [("42.1", 0)]⟩

/-! ## Claim C3 -/

/-- C3 (amended): the occurrenceKey is a deterministic hash of the
sunset-adjusted anchor date of the entry (formatted as an ISO date) together
with the kind — not of the observed date: any two entries with equal
anchor day and kind yield the same key, regardless of target cycle,
while entries with different anchor dates that resolve to the same
observed date in a cycle may yield different keys. -/
theorem claim3_key_from_anchor :
    (∀ (q : JSMap) (n : Nat) (i0 : SubBase),
      getYahrzeitDetailForId q n = some i0 →
        i0.hash = murmur32HexSync (formatISO i0.day ++ "-" ++ i0.type)) ∧
    (∀ (q1 q2 : JSMap) (n1 n2 : Nat) (i1 i2 : SubBase),
      getYahrzeitDetailForId q1 n1 = some i1 →
      getYahrzeitDetailForId q2 n2 = some i2 →
      i1.day = i2.day → i1.type = i2.type → i1.hash = i2.hash) := by
  constructor
  · intro q n i0 h
    obtain ⟨_, _, _, _, _, _, _, _, _, hh⟩ := getYahrzeitDetailForId_shape _ _ _ h
    exact hh
  · intro q1 q2 n1 n2 i1 i2 h1 h2 hday htype
    obtain ⟨_, _, _, _, _, _, _, _, _, hh1⟩ := getYahrzeitDetailForId_shape _ _ _ h1
    obtain ⟨_, _, _, _, _, _, _, _, _, hh2⟩ := getYahrzeitDetailForId_shape _ _ _ h2
    rw [hh1, hh2, hday, htype]

/-- C3 counterexample to the claim as stated: two entries whose anchor
dates differ by one day both resolve (via the calculator) to the same
observed date and kind in cycle 5784, are both emitted, and yet carry
different occurrence keys, because the key is hashed from the anchor
date before the calculator is ever consulted. -/
theorem claim3_counterexample :
    c3Info1.map (fun i => i.observed) = some (some c3Observed) ∧
    c3Info2.map (fun i => i.observed) = some (some c3Observed) ∧
    c3Info1.map (fun i => i.type) = c3Info2.map (fun i => i.type) ∧
    c3Info1.map (fun i => i.hyear) = c3Info2.map (fun i => i.hyear) ∧
    c3Info1.map (fun i => i.day) ≠ c3Info2.map (fun i => i.day) ∧
    c3Info1.map (fun i => i.hash) ≠ c3Info2.map (fun i => i.hash) := by
  exact ⟨rfl, rfl, rfl, rfl, by decide, by decide⟩

theorem claim3_witness :
    getYahrzeitDetailForId sampleRow.contents 1 = some sampleBase ∧
      sampleBase.hash = murmur32HexSync (formatISO sampleBase.day ++ "-" ++ sampleBase.type) :=
  ⟨by decide, claim3_key_from_anchor.1 sampleRow.contents 1 sampleBase (by decide)⟩

/-! ## Claim C6 -/

/-- C6 (amended): the window loop evaluates the longer (7-day) window
before the 1-day window: a candidate qualifying under the 1-day window
(and hence under both) with both dedup ledgers clear is selected by the
7-day evaluation, and the loop breaks before consulting the 1-day
window. -/
theorem claim6_longer_window_first (cal : Calc) (today : Int) (c : Contents) (num : Nat)
    (info0 : SubBase) (hyear : Nat) (sent7 sent1 : StringDateMap) (g : Int)
    (h1 : mapHas sent7 ((c.id ++ "." ++ toString num) ++ "." ++ toString hyear) = false)
    (h2 : mapHas sent7 (((c.id ++ "." ++ toString num) ++ "." ++ toString hyear)
      ++ "." ++ info0.hash) = false)
    (hobs : (if info0.type == "Yahrzeit" then cal.getYahrzeitHD hyear info0.day
             else cal.getBirthdayHD hyear info0.day) = some g)
    (hd0 : 0 ≤ g - today) (hd1 : g - today < 1) :
    (tryWindows cal today c num info0 hyear sent7 sent1).map (fun i => i.reminderDays)
      = some 7 := by
  have hiff := makeSubInfo_emit_iff cal today c num info0 hyear sent7 7 g h1 h2 hobs
  have h7 : (makeSubInfo cal today c num info0 hyear sent7 7).isSome = true :=
    hiff.mpr ⟨hd0, by omega⟩
  obtain ⟨i, hi⟩ := Option.isSome_iff_exists.mp h7
  rw [tryWindows_eq, hi]
  simp [(makeSubInfo_fields _ _ _ _ _ _ _ _ _ hi).2.2.2.2]

/-- C6 counterexample to the claim as stated: the sample candidate
qualifies under both windows (diff 0) with both ledgers empty; the
window loop of the code returns it tagged with the 7-day window, while
the spec-ordered (shorter-first) variant returns the 1-day tag — so the
1-day window is not evaluated before the 7-day window. -/
theorem claim6_counterexample :
    c6Try.map (fun i => i.reminderDays) = some 7 ∧
    c6TrySpec.map (fun i => i.reminderDays) = some 1 ∧
    c6Try.map (fun i => i.reminderDays) ≠ c6TrySpec.map (fun i => i.reminderDays) := by
  exact ⟨rfl, rfl, by decide⟩

theorem claim6_witness :
    (0 ≤ sampleToday - sampleToday ∧ sampleToday - sampleToday < 1) ∧
      (tryWindows sampleCal sampleToday sampleContents 1 sampleBase 5785 [] []).map
        (fun i => i.reminderDays) = some 7 :=
  ⟨⟨by decide, by decide⟩,
   claim6_longer_window_first sampleCal sampleToday sampleContents 1 sampleBase 5785
     [] [] sampleToday (by decide) (by decide) (by decide) (by decide) (by decide)⟩

/-! ## Claim C7 -/

/-- C7 (confirmed): recurrence entries whose date fields parse to the
same numbers — in particular a legacy `d{n}`/`m{n}`/`y{n}` encoding and
a packed `x{n}` encoding of the same calendar date — normalize to the
same anchor day and produce identical occurrence keys for the same kind
and sunset flag; and a well-formed (10-character string) packed field
takes precedence: the date pieces come from it alone, the separate
fields being ignored. -/
theorem claim7_encoding_roundtrip :
    (∀ (q1 q2 : JSMap) (n1 n2 : Nat) (i1 i2 : SubBase),
      getYahrzeitDetailForId q1 n1 = some i1 →
      getYahrzeitDetailForId q2 n2 = some i2 →
      parseIntJS i1.yy = parseIntJS i2.yy →
      parseIntJS i1.mm = parseIntJS i2.mm →
      parseIntJS i1.dd = parseIntJS i2.dd →
      sunsetOn i1.sunset = sunsetOn i2.sunset →
      i1.type = i2.type →
      i1.day = i2.day ∧ i1.hash = i2.hash) ∧
    (∀ (q : JSMap) (id : Nat) (s : String),
      jget q ("x" ++ toString id) = some (.str s) → s.length = 10 →
      getDateForId q id = getDateForId [("x" ++ toString id, .str s)] id) := by
  constructor
  · intro q1 q2 n1 n2 i1 i2 h1 h2 hy hm hd hs ht
    obtain ⟨y1, m1, d1, py1, pm1, pd1, _, _, pday1, ph1⟩ :=
      getYahrzeitDetailForId_shape _ _ _ h1
    obtain ⟨y2, m2, d2, py2, pm2, pd2, _, _, pday2, ph2⟩ :=
      getYahrzeitDetailForId_shape _ _ _ h2
    have ey : y1 = y2 := Option.some.inj ((py1.symm.trans hy).trans py2)
    have em : m1 = m2 := Option.some.inj ((pm1.symm.trans hm).trans pm2)
    have ed : d1 = d2 := Option.some.inj ((pd1.symm.trans hd).trans pd2)
    have eday : i1.day = i2.day := by
      rw [pday1, pday2, ey, em, ed, hs]
    exact ⟨eday, by rw [ph1, ph2, eday, ht]⟩
  · intro q id s hx hlen
    unfold getDateForId
    rw [hx]
    simp [jget, List.lookup, hlen]

theorem claim7_witness :
    getYahrzeitDetailForId c7Q1 2 = some c7B1 ∧
      getYahrzeitDetailForId c7Q2 2 = some c7B2 ∧
      parseIntJS c7B1.mm = parseIntJS c7B2.mm ∧
      (c7B1.day = c7B2.day ∧ c7B1.hash = c7B2.hash) ∧
      getDateForId c7Q1 2 = getDateForId [("x" ++ toString 2, .str ("1990-04-05"))] 2 :=
  ⟨by decide, by decide, by decide,
   claim7_encoding_roundtrip.1 c7Q1 c7Q2 2 2 c7B1 c7B2 (by decide) (by decide)
     (by decide) (by decide) (by decide) (by decide) (by decide),
   claim7_encoding_roundtrip.2 c7Q1 2 ("1990-04-05") (by decide) (by decide)⟩

theorem nodup_flatMap_map {α β γ : Type _} (l : List α) (f : α → List β) (g : β → γ)
    (h1 : ∀ a ∈ l, ((f a).map g).Nodup)
    (h2 : l.Pairwise (fun a a' => ∀ b ∈ f a, ∀ b' ∈ f a', g b ≠ g b')) :
    ((l.flatMap f).map g).Nodup := by
  induction l with
  | nil => simp
  | cons a l ih =>
    rw [List.flatMap_cons, List.map_append]
    refine ((h1 a (by simp)).append
      (ih (fun x hx => h1 x (by simp [hx])) (List.pairwise_cons.mp h2).2)) ?_
    intro x hxa hxl
    obtain ⟨b, hb, rfl⟩ := List.mem_map.mp hxa
    obtain ⟨b', hb', heq⟩ := List.mem_map.mp hxl
    obtain ⟨a', ha', hba'⟩ := List.mem_flatMap.mp hb'
    exact (List.pairwise_cons.mp h2).1 a' ha' b hb b' hba' heq.symm

theorem slotCandidates_triples_nodup (cal : Calc) (today : Int) (hy : Nat) (el : Bool)
    (s7 s1 optout : StringDateMap) (c : Contents) (num : Nat) :
    ((slotCandidates cal today hy el s7 s1 optout c num).map
      (fun i => (i.id, i.num, i.hyear))).Nodup := by
  unfold slotCandidates
  split
  · simp
  · rename_i info0 hdet
    split
    · simp
    · unfold hyearsFor
      split
      · cases hA : tryWindows cal today c num info0 hy s7 s1 with
        | none =>
          cases hB : tryWindows cal today c num info0 (hy + 1) s7 s1 <;>
            simp [List.filterMap_cons, hA, hB]
        | some iA =>
          cases hB : tryWindows cal today c num info0 (hy + 1) s7 s1 with
          | none => simp [List.filterMap_cons, hA, hB]
          | some iB =>
            obtain ⟨_, _, hA3, _⟩ := tryWindows_fields _ _ _ _ _ _ _ _ _ hA
            obtain ⟨_, _, hB3, _⟩ := tryWindows_fields _ _ _ _ _ _ _ _ _ hB
            simp only [List.filterMap_cons, hA, hB, List.filterMap_nil, List.map_cons,
              List.map_nil, List.nodup_cons, List.mem_singleton, List.not_mem_nil,
              not_false_iff, and_true, List.nodup_nil]
            intro heq
            have := congrArg (fun t => t.2.2) heq
            simp only [hA3, hB3] at this
            omega
      · cases hA : tryWindows cal today c num info0 hy s7 s1 <;>
          simp [List.filterMap_cons, hA]

theorem processDbRow_triples_nodup (cal : Calc) (today : Int) (hy : Nat) (el : Bool)
    (s7 s1 optout : StringDateMap) (row : DbRow) :
    ((processDbRow cal today hy el s7 s1 optout row).map
      (fun i => (i.id, i.num, i.hyear))).Nodup := by
  unfold processDbRow
  split
  · simp
  · simp only []
    apply nodup_flatMap_map
    · intro num _
      exact slotCandidates_triples_nodup cal today hy el s7 s1 optout _ num
    · have hr : (List.range' 1 (getMaxYahrzeitId row.contents)).Pairwise (· ≠ ·) :=
        List.nodup_range' 1 (getMaxYahrzeitId row.contents)
      refine hr.imp ?_
      intro a a' hne b hb b' hb' heq
      have h1 := (mem_slotCandidates _ _ _ _ _ _ _ _ _ _ hb).2.1
      have h2 := (mem_slotCandidates _ _ _ _ _ _ _ _ _ _ hb').2.1
      apply hne
      have hnums := congrArg (fun t => t.2.1) heq
      simp only [h1, h2] at hnums
      exact hnums

/-! ## Claim C2 -/

/-- C2 (confirmed): within a single run over rows with distinct
subscription ids, the candidate list contains at most one entry per
(subscriptionId, slot, targetCycle): the triple projection of the output
of `loadSubsFromDb` has no duplicates — once `makeSubInfo` accepts a
candidate for one window, the window loop breaks, so each slot and cycle
contributes at most one entry. -/
theorem claim2_at_most_one (cal : Calc) (today : Int) (hy : Nat) (el : Bool)
    (rows : List DbRow) (optout s7 s1 : StringDateMap)
    (hids : (rows.map DbRow.id).Nodup) :
    ((loadSubsFromDb cal today hy el rows optout s7 s1).map
      (fun i => (i.id, i.num, i.hyear))).Nodup := by
  unfold loadSubsFromDb
  apply nodup_flatMap_map
  · intro row _
    exact processDbRow_triples_nodup cal today hy el s7 s1 optout row
  · have hp : rows.Pairwise (fun r r' => r.id ≠ r'.id) := List.pairwise_map.mp hids
    refine hp.imp ?_
    intro r r' hne b hb b' hb' heq
    have h1 := (mem_processDbRow _ _ _ _ _ _ _ _ _ hb).1
    have h2 := (mem_processDbRow _ _ _ _ _ _ _ _ _ hb').1
    apply hne
    have hids2 := congrArg (fun t => t.1) heq
    simp only [h1, h2] at hids2
    exact hids2

theorem claim2_witness :
    (([sampleRow].map DbRow.id)).Nodup ∧
      ((loadSubsFromDb sampleCal sampleToday 5785 false [sampleRow] [] [] []).map
        (fun i => (i.id, i.num, i.hyear))).Nodup :=
  ⟨by decide,
   claim2_at_most_one sampleCal sampleToday 5785 false [sampleRow] [] [] [] (by decide)⟩
